import Mathlib

/-!
Verification development for the genkit execution runtime.

The data model and operations below are shallowly embedded from the
repository sources: `src/js/core/src/genkit.ts` (Genkit instance,
environment detection, flow server startup, SIGTERM handler),
`src/unnamed/part_001` (the `streamy` and `streamyThrowy` streaming flow
handlers), and `src/docs/tool-calling.md`.  The Flow streaming machinery,
the Registry plugin cache and the Generation Loop are part of this
repository but their implementation files are not present under `src/`;
those are modelled from the spec, as marked on each definition.
-/

/-! ## Streaming flows

Modelled from the spec: the implementation of `defineStreamingFlow` /
flow `stream` (src `flow.ts`) is not under `src/`.  Per spec 4.2, the
handler is given a stream sink it may call zero or more times before
returning its final output; chunks are delivered in call order; if the
handler raises, the chunk sequence ends and the final promise rejects
with the same error.  A handler's interaction with the sink is captured
as a program that either emits a chunk and continues, returns a value,
or raises an error. -/
inductive HandlerProg (χ ω ε : Type) where
  | emit (c : χ) (k : HandlerProg χ ω ε)
  | ret (v : ω)
  | fail (e : ε)
deriving DecidableEq

/-- Observable events of one streaming execution, in the order a consumer
observes them: each chunk in turn, then the settlement of the final
promise (resolution or rejection). -/
inductive StreamEvent (χ ω ε : Type) where
  | chunk (c : χ)
  | resolve (v : ω)
  | reject (e : ε)
deriving DecidableEq

/-- Modelled from the spec: running a streaming flow delivers the chunks
the handler emitted, in call order, followed by the settlement of the
final promise. -/
def runStream {χ ω ε : Type} : HandlerProg χ ω ε → List (StreamEvent χ ω ε)
  | .emit c k => .chunk c :: runStream k
  | .ret v => [.resolve v]
  | .fail e => [.reject e]

/-- A handler that emits the chunks `cs` in order and then continues as `k`. -/
def emitAll {χ ω ε : Type} : List χ → HandlerProg χ ω ε → HandlerProg χ ω ε
  | [], k => k
  | c :: cs, k => .emit c (emitAll cs k)

/-- The chunks a consumer observes from a stream execution. -/
def observedChunks {χ ω ε : Type} (evs : List (StreamEvent χ ω ε)) : List χ :=
  evs.filterMap fun ev => match ev with
    | .chunk c => some c
    | _ => none

/-! From `src/unnamed/part_001`: the `streamy` and `streamyThrowy`
streaming flow handlers of the Go api_test program.  Both loop `i` from
`0` while `i < count`, emitting `chunk{i}`; `streamyThrowy` additionally
returns the error `"boom!"` as soon as `i == 3`. -/

/-- A streamed chunk `{count: i}` as in the Go test program. -/
structure Chunk where
  count : Int
deriving DecidableEq

/-- Loop body of `streamy`: emit `chunk{i}` for `i`, `i+1`, …, `count-1`,
then return Go's `fmt.Sprintf("done %d, streamed: %d times", count, i)`
with `i = count`. -/
def streamyLoop (count : Int) (i : Int) (fuel : Nat) : HandlerProg Chunk String String :=
  match fuel with
  | 0 => .ret ("done " ++ toString count ++ ", streamed: " ++ toString i ++ " times")
  | fuel + 1 =>
    if i < count then .emit ⟨i⟩ (streamyLoop count (i + 1) fuel)
    else .ret ("done " ++ toString count ++ ", streamed: " ++ toString i ++ " times")

/-- The `streamy` handler from `src/unnamed/part_001` (sink present and
never failing): `for i := 0; i < count; i++ { cb(ctx, chunk{i}) }` then
`fmt.Sprintf("done %d, streamed: %d times", count, i)`.  The fuel is the
loop's iteration bound. -/
def streamy (count : Int) : HandlerProg Chunk String String :=
  streamyLoop count 0 count.toNat

/-- Loop body of `streamyThrowy`: like `streamyLoop` but returns error
`"boom!"` when `i == 3`, before emitting that chunk. -/
def streamyThrowyLoop (count : Int) (i : Int) (fuel : Nat) : HandlerProg Chunk String String :=
  match fuel with
  | 0 => .ret ("done: " ++ toString count ++ ", streamed: " ++ toString i ++ " times")
  | fuel + 1 =>
    if i < count then
      if i = 3 then .fail "boom!"
      else .emit ⟨i⟩ (streamyThrowyLoop count (i + 1) fuel)
    else .ret ("done: " ++ toString count ++ ", streamed: " ++ toString i ++ " times")

/-- The `streamyThrowy` handler from `src/unnamed/part_001`: as `streamy`
but with `if i == 3 { return "", errors.New("boom!") }` inside the loop,
and final string `"done: %d, streamed: %d times"`. -/
def streamyThrowy (count : Int) : HandlerProg Chunk String String :=
  streamyThrowyLoop count 0 count.toNat

/-! ## Generation Loop (tool calling)

Modelled from the spec: the `generate()` implementation (src `generate.ts`)
is not under `src/`; only its documentation (`src/docs/tool-calling.md`)
and callers are.  Spec 4.3 gives the state machine: invoke the model on
the history, inspect the top candidate; a finish reason other than
tool-call terminates with that candidate; in manual mode
(`returnToolRequests = true`) the loop stops after the model call and
hands the pending ToolRequests to the caller; otherwise the tool
requests are resolved (lookup failure aborts with ToolNotFoundError,
tool execution failure is absorbed into the ToolResponse), the results
are appended to the history, and the loop repeats until a configured
maximum of model/tool round trips is exceeded, terminating with
ToolLoopExceededError (spec 8: exactly the configured maximum round
trips, never unbounded). -/

/-- Finish reason of a model candidate (spec 3). -/
inductive FinishReason where
  | stop
  | toolCall
  | length
  | errorReason
  | other
deriving DecidableEq

/-- A ToolRequest: names a registered tool Action, carries its input,
correlated by an opaque `ref` token (spec 3). -/
structure ToolRequest where
  name : String
  ref : String
  input : String
deriving DecidableEq

deriving instance DecidableEq for Except

/-- A ToolResponse: the tool's output or its absorbed error, echoing the
request's `ref` (spec 3, 4.3 step 3). -/
structure ToolResponse where
  name : String
  ref : String
  output : Except String String
deriving DecidableEq

/-- A message of the conversation history. -/
inductive Message where
  | text (role : String) (content : String)
  | toolResponses (rs : List ToolResponse)
deriving DecidableEq

/-- The model's top-ranked candidate: a message, a finish reason, and the
pending ToolRequests (empty unless the finish reason is tool-call). -/
structure Candidate where
  message : Message
  finishReason : FinishReason
  toolRequests : List ToolRequest
deriving DecidableEq

/-- A registered tool Action: a name and a handler from validated input
to output or failure. -/
structure Tool where
  name : String
  fn : String → Except String String

/-- Outcome of the Generation Loop. -/
inductive GenOutcome where
  | done (c : Candidate)
  | manual (c : Candidate) (pending : List ToolRequest)
  | toolLoopExceeded
  | toolNotFound (name : String)
deriving DecidableEq

/-- Invocation counts observed during one Generation Loop run: model
invocations, tool Action invocations, and completed model/tool round
trips (a model call whose tool requests were resolved and appended,
followed by resubmission). -/
structure LoopStats where
  modelCalls : Nat
  toolInvocations : Nat
  roundTrips : Nat
deriving DecidableEq

/-- Modelled from the spec (4.3 step 3): resolve one ToolRequest — look
the tool up by name (absence aborts the loop with ToolNotFoundError),
invoke it, and wrap the output or the caught error as a ToolResponse
carrying the same `ref`. -/
def resolveOne (tools : List Tool) (req : ToolRequest) : Except String ToolResponse :=
  match tools.find? (fun t => t.name = req.name) with
  | none => .error req.name
  | some t => .ok ⟨req.name, req.ref, t.fn req.input⟩

/-- Resolve every ToolRequest of a candidate, reassembled in original
request order (spec 3); the first missing tool aborts. -/
def resolveTools (tools : List Tool) : List ToolRequest → Except String (List ToolResponse)
  | [] => .ok []
  | req :: reqs =>
    match resolveOne tools req with
    | .error n => .error n
    | .ok r =>
      match resolveTools tools reqs with
      | .error n => .error n
      | .ok rs => .ok (r :: rs)

/-- Modelled from the spec (4.3, 8): the Generation Loop.  `maxTurns` is
the configured maximum number of model/tool round trips; the model is a
deterministic stub from history to top-ranked candidate.  Returns the
outcome together with the observed invocation counts. -/
def generateLoop (model : List Message → Candidate) (tools : List Tool)
    (returnToolRequests : Bool) : Nat → List Message → GenOutcome × LoopStats
  | fuel, hist =>
    let c := model hist
    if c.finishReason ≠ .toolCall then (.done c, ⟨1, 0, 0⟩)
    else if returnToolRequests then (.manual c c.toolRequests, ⟨1, 0, 0⟩)
    else
      match fuel with
      | 0 => (.toolLoopExceeded, ⟨1, 0, 0⟩)
      | fuel + 1 =>
        match resolveTools tools c.toolRequests with
        | .error n => (.toolNotFound n, ⟨1, 0, 0⟩)
        | .ok rs =>
          let rest := generateLoop model tools returnToolRequests fuel
            (hist ++ [c.message, .toolResponses rs])
          (rest.1, ⟨rest.2.modelCalls + 1, rest.2.toolInvocations + c.toolRequests.length,
            rest.2.roundTrips + 1⟩)

/-! ## Registry

`src/js/core/src/genkit.ts` creates one `Registry` per Genkit instance
(`this.registry = new Registry()` in the constructor) and registers the
options' plugins against it without invoking their initializers
(`configure`, lines 224–233).  The `Registry` implementation itself
(src `registry.ts`) is not under `src/`; its tables and the lazy
memoized `initializePlugin` are modelled from the spec (3, 4.1, 8).
Action payloads and plugin values are opaque and modelled as strings;
a plugin initializer is deterministic and modelled by the settled
result (value or failure) it produces when first run, with an explicit
invocation counter recording each run. -/

/-- Registration-time errors (spec 7). -/
inductive RegError where
  | duplicateName
deriving DecidableEq

/-- Look a name up in an association list. -/
def lookupEntry {β : Type} (l : List (String × β)) (n : String) : Option β :=
  (l.find? (fun e => e.1 = n)).map (·.2)

/-- Modelled from the spec (3, 4.1): a Registry holds a table of Actions
keyed by (kind, name), a table of registered plugin providers (each the
settled result its initializer produces), the memoized plugin cache, and
a per-plugin count of initializer invocations. -/
structure Registry where
  actions : List ((String × String) × String)
  providers : List (String × Except String String)
  cache : List (String × Except String String)
  initCount : List (String × Nat)
deriving DecidableEq

/-- `new Registry()`: all tables empty. -/
def emptyRegistry : Registry := ⟨[], [], [], []⟩

/-- Modelled from the spec (4.1): `registerAction` fails with
DuplicateNameError if the (kind, name) pair already exists. -/
def registerAction (r : Registry) (kind name : String) (a : String) :
    Except RegError Registry :=
  if (r.actions.find? (fun e => e.1 = (kind, name))).isSome then .error .duplicateName
  else .ok { r with actions := r.actions ++ [((kind, name), a)] }

/-- Modelled from the spec (4.1): `lookupAction` by (kind, name). -/
def lookupAction (r : Registry) (kind name : String) : Option String :=
  (r.actions.find? (fun e => e.1 = (kind, name))).map (·.2)

/-- Modelled from the spec (4.1): `registerPluginProvider` fails with
DuplicateNameError on name collision and does not invoke the
initializer: the provider table gains the entry, the cache and the
invocation counts are untouched. -/
def registerPluginProvider (r : Registry) (name : String)
    (init : Except String String) : Except RegError Registry :=
  if (lookupEntry r.providers name).isSome then .error .duplicateName
  else .ok { r with providers := r.providers ++ [(name, init)] }

/-- Number of times `name`'s initializer has run. -/
def initCountOf (r : Registry) (name : String) : Nat :=
  (lookupEntry r.initCount name).getD 0

/-- Increment a name's invocation count in the counter table. -/
def bumpCount : List (String × Nat) → String → List (String × Nat)
  | [], name => [(name, 1)]
  | (n, k) :: rest, name =>
    if n = name then (n, k + 1) :: rest else (n, k) :: bumpCount rest name

/-- Modelled from the spec (4.1, 8): `initializePlugin` resolves a
plugin.  A cached settlement (value or failure alike) is returned
unchanged without running the initializer again; otherwise the
registered initializer runs once, its settlement is memoized, and the
invocation count is incremented.  An unregistered name resolves to
`none`. -/
def initializePlugin (r : Registry) (name : String) :
    Option (Except String String) × Registry :=
  match lookupEntry r.cache name with
  | some res => (some res, r)
  | none =>
    match lookupEntry r.providers name with
    | none => (none, r)
    | some init =>
      (some init,
        { r with cache := r.cache ++ [(name, init)],
                 initCount := bumpCount r.initCount name })

/-- Resolve a plugin `k + 1` further times, returning the last result. -/
def initializeIter (r : Registry) (name : String) :
    Nat → Option (Except String String) × Registry
  | 0 => initializePlugin r name
  | k + 1 => initializeIter (initializePlugin r name).2 name k

/-- Register a list of plugin providers in order (`configure` in
`src/js/core/src/genkit.ts`, lines 224–233): each is registered without
its initializer being invoked.  A duplicate name in the options list
would abort construction in the source; the fold skips it, a case no
claim exercises. -/
def registerPluginList : List (String × Except String String) → Registry → Registry
  | [], r => r
  | (n, init) :: rest, r =>
    match registerPluginProvider r n init with
    | .ok r' => registerPluginList rest r'
    | .error _ => registerPluginList rest r

/-! ## Genkit instance, environment, flow server
From `src/js/core/src/genkit.ts`. -/

/-- `getCurrentEnv` (lines 354–356): `process.env.GENKIT_ENV || 'prod'`.
The environment variable is `none` when unset; an empty string is falsy
in JavaScript and also yields `'prod'`. -/
def getCurrentEnv (genkitEnv : Option String) : String :=
  match genkitEnv with
  | none => "prod"
  | some s => if s = "" then "prod" else s

/-- `isDevEnv` (lines 359–361): whether the current env is `dev`. -/
def isDevEnv (genkitEnv : Option String) : Bool :=
  getCurrentEnv genkitEnv = "dev"

/-- A registered flow, as far as the flow server needs it: its name. -/
structure FlowDef where
  name : String
deriving DecidableEq

/-- `FlowServerOptions` (lines 80–93).  `pathPref` models the source's
path-prefix option field; `port` and the flow list are optional. -/
structure FlowServerOptions where
  enabled : Bool
  flows : Option (List FlowDef) := none
  port : Option Int := none
  pathPref : Option String := none
deriving DecidableEq

/-- `GenkitOptions` (lines 51–75), restricted to the fields the claims
exercise: the plugin list and the flow server configuration. -/
structure GenkitOptions where
  plugins : List (String × Except String String) := []
  flowServer : Option FlowServerOptions := none

/-- JavaScript `parseInt(s)` for the decimal case: skip leading
whitespace, an optional sign, then the longest digit prefix; no digits
means NaN, modelled as `none`.  (The hexadecimal `0x` form of `parseInt`
is not modelled; no claim exercises it.) -/
def jsParseInt (s : String) : Option Int :=
  let cs := s.data.dropWhile (fun c => c = ' ' ∨ c = '\t' ∨ c = '\n' ∨ c = '\r')
  let digitsVal : List Char → Option Int := fun l =>
    let ds := l.takeWhile (·.isDigit)
    if ds.isEmpty then none
    else some (ds.foldl (fun a c => a * 10 + ((c.toNat : Int) - ('0'.toNat : Int))) 0)
  match cs with
  | '-' :: rest => (digitsVal rest).map (fun n => -n)
  | '+' :: rest => digitsVal rest
  | _ => digitsVal cs

/-- The flow server port when the `port` option is absent or falsy
(lines 192–195): `(process.env.PORT ? parseInt(process.env.PORT) : 0) || 3400`.
An unset or empty `PORT` gives `0`, and a falsy intermediate (`0` or
NaN) falls through to `3400`. -/
def portFallback (envPORT : Option String) : Int :=
  match envPORT with
  | none => 3400
  | some s =>
    if s = "" then 3400
    else
      match jsParseInt s with
      | none => 3400
      | some n => if n = 0 then 3400 else n

/-- The flow server port (lines 192–195):
`this.options.flowServer?.port || (process.env.PORT ? parseInt(process.env.PORT) : 0) || 3400`.
JavaScript `||` skips falsy values, so a configured port of `0` falls
through to the fallback chain. -/
def choosePort (optPort : Option Int) (envPORT : Option String) : Int :=
  match optPort with
  | some p => if p = 0 then portFallback envPORT else p
  | none => portFallback envPORT

/-- The mount path of one flow (line 203): `/`, then the configured
path prefix (`?? ''`, so only a nullish option defaults to the empty
string), then the flow's name. -/
def flowPath (pref : Option String) (name : String) : String :=
  "/" ++ pref.getD "" ++ name

/-- The created flow server: its listening port and the mounted paths in
mount order. -/
structure FlowServer where
  port : Int
  mounted : List String
deriving DecidableEq

/-- `startFlowServer` (lines 188–214): returns without creating a server
unless `flowServer?.enabled` is truthy; otherwise computes the port,
mounts `options.flowServer?.flows || this.registeredFlows` (a present
flow list always wins, since a JavaScript array is truthy even when
empty) at their paths, and listens. -/
def startFlowServer (opts : GenkitOptions) (envPORT : Option String)
    (registeredFlows : List FlowDef) : Option FlowServer :=
  match opts.flowServer with
  | none => none
  | some fs =>
    if fs.enabled then
      some { port := choosePort fs.port envPORT,
             mounted := (fs.flows.getD registeredFlows).map
               (fun f => flowPath fs.pathPref f.name) }
    else none

/-- A Genkit instance: its exclusively owned Registry, whether the
Reflection surface was started, the flow server (null unless enabled),
and the flows registered so far. -/
structure Genkit where
  registry : Registry
  reflectionStarted : Bool
  flowServer : Option FlowServer
  registeredFlows : List FlowDef

/-- The `Genkit` constructor (lines 119–137): creates a fresh Registry,
registers the options' plugins against it without initializing them,
starts the Reflection server exactly when `isDevEnv()`, and calls
`startFlowServer` (with the registered-flow list empty at construction
time). -/
def mkGenkit (opts : GenkitOptions) (genkitEnv envPORT : Option String) : Genkit :=
  { registry := registerPluginList opts.plugins emptyRegistry
    reflectionStarted := isDevEnv genkitEnv
    flowServer := startFlowServer opts envPORT []
    registeredFlows := [] }

/-! ## Process termination (SIGTERM handler)
From `src/js/core/src/genkit.ts`, lines 363–370. -/

/-- The operations a shutdown might perform. -/
inductive ShutdownOp where
  | stopAllReflection
  | cleanUpTracing
  | stopFlowServer
  | procExitZero
deriving DecidableEq

/-- The SIGTERM handler (lines 363–370) as ordered phases: operations in
one phase are started together and awaited jointly (`Promise.all`), and
a later phase begins only after every operation of the earlier phases
completed.  The source awaits
`Promise.all([ReflectionServer.stopAll(), cleanUpTracing()])`, then
calls `process.exit(0)`; stopping the flow server is a TODO absent from
the handler. -/
def sigtermHandler : List (List ShutdownOp) :=
  [[.stopAllReflection, .cleanUpTracing], [.procExitZero]]

/-- The phase in which an operation runs, if it runs at all. -/
def phaseOf (h : List (List ShutdownOp)) (op : ShutdownOp) : Option Nat :=
  h.findIdx? (fun phase => phase.contains op)

/-- `a` is guaranteed to complete before `b` begins: both run, and `a`'s
phase is strictly earlier. -/
def completesBefore (h : List (List ShutdownOp)) (a b : ShutdownOp) : Prop :=
  ∃ i j, phaseOf h a = some i ∧ phaseOf h b = some j ∧ i < j

instance (h : List (List ShutdownOp)) (a b : ShutdownOp) :
    Decidable (completesBefore h a b) := by
  unfold completesBefore
  cases ha : phaseOf h a with
  | none => exact isFalse (by rintro ⟨i, j, hi, _, _⟩; simp [ha] at hi)
  | some i =>
    cases hb : phaseOf h b with
    | none => exact isFalse (by rintro ⟨i, j, _, hj, _⟩; simp [hb] at hj)
    | some j =>
      cases Nat.decLt i j with
      | isTrue hlt => exact isTrue ⟨i, j, rfl, rfl, hlt⟩
      | isFalse hge =>
        exact isFalse (by
          rintro ⟨i', j', hi', hj', hlt⟩
          cases hi'; cases hj'
          exact hge hlt)

/-! ## Port selection as the spec's words read it
Two definitions written from the claim's words about lines 192–196 of
`src/js/core/src/genkit.ts`, for comparison against `choosePort`. -/

/-- The port candidates in the order the claim lists them: the
configured port if defined, the integer value of the PORT environment
variable if defined and numeric, and the constant 3400. -/
def portCandidates (optPort : Option Int) (envPORT : Option String) : List Int :=
  optPort.toList ++ (envPORT.bind jsParseInt).toList ++ [3400]

/-- Written from the claim's words: the first defined value among the
configured port, the parsed PORT variable, and 3400. -/
def firstDefinedPort (optPort : Option Int) (envPORT : Option String) : Int :=
  (portCandidates optPort envPORT).headI

/-- Written from the amended claim's words: the first truthy value among
the configured port, the parsed PORT variable, and 3400 — a value of `0`
(and a PORT that is unset, empty or non-numeric) is skipped. -/
def firstTruthyPort (optPort : Option Int) (envPORT : Option String) : Int :=
  ((portCandidates optPort envPORT).find? (fun n => n != 0)).getD 0

/-! ## Concrete stubs used by witnesses -/

/-- The `specialTool` of `src/docs/tool-calling.md`: returns
`"Baked beans on toast"`. -/
def specialTool : Tool :=
  ⟨"specialTool", fun _ => .ok "Baked beans on toast"⟩

/-- A model stub that on every invocation returns a top-ranked candidate
with finish reason tool-call, requesting `specialTool` (the docs'
scenario's first response). -/
def requestModel : List Message → Candidate :=
  fun _ => ⟨.text "model" "", .toolCall, [⟨"specialTool", "r1", "lunch"⟩]⟩

/-! ## Helper lemmas -/

theorem runStream_emitAll {χ ω ε : Type} (cs : List χ) (k : HandlerProg χ ω ε) :
    runStream (emitAll cs k) = cs.map StreamEvent.chunk ++ runStream k := by
  induction cs with
  | nil => simp [emitAll]
  | cons c cs ih => simp [emitAll, runStream, ih]

theorem observedChunks_map_chunk {χ ω ε : Type} (cs : List χ)
    (rest : List (StreamEvent χ ω ε)) :
    observedChunks (cs.map StreamEvent.chunk ++ rest) = cs ++ observedChunks rest := by
  induction cs with
  | nil => simp
  | cons c cs ih => simp [observedChunks] at ih ⊢; exact ih

theorem lookupEntry_cons {β : Type} (m : String) (v : β) (l : List (String × β)) (n : String) :
    lookupEntry ((m, v) :: l) n = if m = n then some v else lookupEntry l n := by
  unfold lookupEntry
  by_cases h : m = n
  · simp [List.find?, h]
  · simp [List.find?, h]

theorem lookupEntry_append_none {β : Type} (l : List (String × β)) (n : String) (v : β)
    (h : lookupEntry l n = none) : lookupEntry (l ++ [(n, v)]) n = some v := by
  induction l with
  | nil => simp [lookupEntry, List.find?]
  | cons e l ih =>
    obtain ⟨m, w⟩ := e
    rw [List.cons_append, lookupEntry_cons] at *
    by_cases hm : m = n
    · simp [hm] at h
    · simp [hm] at h ⊢
      exact ih h

theorem bumpCount_lookup (l : List (String × Nat)) (n : String) :
    lookupEntry (bumpCount l n) n = some ((lookupEntry l n).getD 0 + 1) := by
  induction l with
  | nil => simp [bumpCount, lookupEntry_cons, lookupEntry, List.find?]
  | cons e l ih =>
    obtain ⟨m, k⟩ := e
    unfold bumpCount
    by_cases hm : m = n
    · simp [hm, lookupEntry_cons]
    · simp [hm, lookupEntry_cons, ih]

theorem registerPluginList_actions (ps : List (String × Except String String)) :
    ∀ r : Registry, (registerPluginList ps r).actions = r.actions := by
  induction ps with
  | nil => intro r; rfl
  | cons p ps ih =>
    intro r
    obtain ⟨n, init⟩ := p
    unfold registerPluginList
    unfold registerPluginProvider
    by_cases hp : (lookupEntry r.providers n).isSome
    · simp only [hp, if_true]
      exact ih r
    · simp only [hp, if_false, Bool.false_eq_true]
      rw [ih]

theorem registerAction_of_empty (R : Registry) (hR : R.actions = [])
    (kind name a : String) :
    registerAction R kind name a = .ok { R with actions := [((kind, name), a)] } := by
  unfold registerAction
  rw [hR]
  simp [List.find?]

theorem lookupAction_of_empty (R : Registry) (hR : R.actions = []) (kind name : String) :
    lookupAction R kind name = none := by
  unfold lookupAction
  rw [hR]
  simp [List.find?]

theorem jsParseInt_empty : jsParseInt "" = none := by rfl

theorem choosePort_eq_firstTruthy (optPort : Option Int) (envPORT : Option String) :
    choosePort optPort envPORT = firstTruthyPort optPort envPORT := by
  have hfb : portFallback envPORT = firstTruthyPort none envPORT := by
    unfold portFallback firstTruthyPort portCandidates
    cases envPORT with
    | none => rfl
    | some s =>
      by_cases hs : s = ""
      · subst hs
        simp [jsParseInt_empty]
      · simp only [hs, if_false]
        cases hj : jsParseInt s with
        | none => simp [hj]
        | some n =>
          by_cases hn : n = 0
          · subst hn
            simp [hj]
          · simp [hj, hn, List.find?]
  cases optPort with
  | none => exact hfb
  | some p =>
    by_cases hp : p = 0
    · subst hp
      unfold choosePort
      rw [hfb]
      unfold firstTruthyPort portCandidates
      simp [List.find?]
    · have hb : (p != 0) = true := by simpa using hp
      unfold choosePort firstTruthyPort portCandidates
      simp [hp, hb, List.find?]

/-! ## Claim theorems -/

/-- C1: against a model that on every invocation returns a tool-call
candidate (whose requests all resolve), the automatic Generation Loop
terminates with ToolLoopExceededError after exactly the configured
maximum number of model/tool round trips, invoking the model exactly
`maxTurns + 1` times — never more, and never looping unboundedly
(`generateLoop` is total by construction). -/
theorem toolLoop_exceeded (model : List Message → Candidate) (tools : List Tool)
    (maxTurns : Nat) (hist : List Message)
    (hm : ∀ H, (model H).finishReason = .toolCall)
    (hr : ∀ H, ∃ rs, resolveTools tools (model H).toolRequests = .ok rs) :
    (generateLoop model tools false maxTurns hist).1 = .toolLoopExceeded ∧
    (generateLoop model tools false maxTurns hist).2.modelCalls = maxTurns + 1 ∧
    (generateLoop model tools false maxTurns hist).2.roundTrips = maxTurns := by
  induction maxTurns generalizing hist with
  | zero =>
    rw [generateLoop]
    simp [hm hist]
  | succ n ih =>
    obtain ⟨rs, hrs⟩ := hr hist
    rw [generateLoop]
    simp only [hm hist, ne_eq, not_true_eq_false, if_false, Bool.false_eq_true, ite_false, hrs]
    have := ih (hist ++ [(model hist).message, .toolResponses rs])
    exact ⟨this.1, by simp [this.2.1], by simp [this.2.2]⟩

/-- Witness for C1: the always-tool-call stub `requestModel` with
`specialTool` registered and a maximum of 2 round trips terminates with
ToolLoopExceededError after 3 model calls and 2 round trips. -/
theorem toolLoop_exceeded_witness :
    (∀ H, (requestModel H).finishReason = .toolCall) ∧
    (∀ H, ∃ rs, resolveTools [specialTool] (requestModel H).toolRequests = .ok rs) ∧
    (generateLoop requestModel [specialTool] false 2 []).1 = .toolLoopExceeded ∧
    (generateLoop requestModel [specialTool] false 2 []).2.modelCalls = 2 + 1 ∧
    (generateLoop requestModel [specialTool] false 2 []).2.roundTrips = 2 := by
  have h := toolLoop_exceeded requestModel [specialTool] 2 []
    (fun _ => rfl) (fun _ => ⟨_, rfl⟩)
  exact ⟨fun _ => rfl, fun _ => ⟨_, rfl⟩, h.1, h.2.1, h.2.2⟩

/-- C2: a streaming Flow handler that emits chunks `cs` and then returns
`v` yields the event sequence `cs` (in emission order) followed by the
resolution of the final promise with `v` — the resolution event comes
strictly after every chunk, and an empty `cs` gives an empty chunk
sequence with normal resolution.  Anchored on the source handler
`streamy` at count 3. -/
theorem stream_chunkOrder_final :
    (∀ (χ ω ε : Type) (cs : List χ) (v : ω),
      runStream (emitAll cs (.ret v) : HandlerProg χ ω ε) =
        cs.map StreamEvent.chunk ++ [StreamEvent.resolve v]) ∧
    (∀ (χ ω ε : Type) (cs : List χ) (v : ω),
      observedChunks (runStream (emitAll cs (.ret v) : HandlerProg χ ω ε)) = cs) ∧
    streamy 3 = emitAll [⟨0⟩, ⟨1⟩, ⟨2⟩] (.ret "done 3, streamed: 3 times") ∧
    runStream (streamy 3) =
      [.chunk ⟨0⟩, .chunk ⟨1⟩, .chunk ⟨2⟩, .resolve "done 3, streamed: 3 times"] := by
  refine ⟨?_, ?_, by rfl, by rfl⟩
  · intro χ ω ε cs v
    rw [runStream_emitAll]
    rfl
  · intro χ ω ε cs v
    rw [runStream_emitAll, observedChunks_map_chunk]
    simp [observedChunks, runStream]

/-- C7: a streaming Flow handler that raises `e` after emitting the
prefix `cs` yields exactly the chunks `cs` followed by the rejection of
the final promise with the same error.  Anchored on the source handler
`streamyThrowy` at count 5, which emits chunks 0, 1, 2 and then raises
`"boom!"`. -/
theorem stream_error_prefix :
    (∀ (χ ω ε : Type) (cs : List χ) (e : ε),
      runStream (emitAll cs (.fail e) : HandlerProg χ ω ε) =
        cs.map StreamEvent.chunk ++ [StreamEvent.reject e]) ∧
    (∀ (χ ω ε : Type) (cs : List χ) (e : ε),
      observedChunks (runStream (emitAll cs (.fail e) : HandlerProg χ ω ε)) = cs) ∧
    streamyThrowy 5 = emitAll [⟨0⟩, ⟨1⟩, ⟨2⟩] (.fail "boom!") ∧
    runStream (streamyThrowy 5) =
      [.chunk ⟨0⟩, .chunk ⟨1⟩, .chunk ⟨2⟩, .reject "boom!"] := by
  refine ⟨?_, ?_, by rfl, by rfl⟩
  · intro χ ω ε cs e
    rw [runStream_emitAll]
    rfl
  · intro χ ω ε cs e
    rw [runStream_emitAll, observedChunks_map_chunk]
    simp [observedChunks, runStream]

/-- C3: registering a plugin provider does not invoke its initializer
(the invocation count is unchanged); the first resolution runs it once
and returns its settlement; and every further resolution returns the
same memoized settlement (a failure exactly like a value) without
running the initializer again or changing the Registry. -/
theorem plugin_memoization (r : Registry) (pname : String) (init : Except String String)
    (r' : Registry)
    (hc : lookupEntry r.cache pname = none)
    (hreg : registerPluginProvider r pname init = .ok r') :
    initCountOf r' pname = initCountOf r pname ∧
    (initializePlugin r' pname).1 = some init ∧
    initCountOf (initializePlugin r' pname).2 pname = initCountOf r pname + 1 ∧
    (∀ k, initializeIter (initializePlugin r' pname).2 pname k =
      (some init, (initializePlugin r' pname).2)) := by
  unfold registerPluginProvider at hreg
  by_cases hp : (lookupEntry r.providers pname).isSome
  · simp [hp] at hreg
  · simp only [hp, if_false, Bool.false_eq_true, Except.ok.injEq] at hreg
    subst hreg
    have hpn : lookupEntry r.providers pname = none := Option.not_isSome_iff_eq_none.mp hp
    have hres : initializePlugin
        { r with providers := r.providers ++ [(pname, init)] } pname =
        (some init,
          { r with providers := r.providers ++ [(pname, init)],
                   cache := r.cache ++ [(pname, init)],
                   initCount := bumpCount r.initCount pname }) := by
      unfold initializePlugin
      simp only [hc, lookupEntry_append_none r.providers pname init hpn]
    refine ⟨rfl, ?_, ?_, ?_⟩
    · rw [hres]
    · rw [hres]
      unfold initCountOf
      simp [bumpCount_lookup]
    · intro k
      rw [hres]
      have hfix : initializePlugin
          { r with providers := r.providers ++ [(pname, init)],
                   cache := r.cache ++ [(pname, init)],
                   initCount := bumpCount r.initCount pname } pname =
          (some init,
            { r with providers := r.providers ++ [(pname, init)],
                     cache := r.cache ++ [(pname, init)],
                     initCount := bumpCount r.initCount pname }) := by
        unfold initializePlugin
        simp [lookupEntry_append_none r.cache pname init hc]
      induction k with
      | zero => simpa [initializeIter] using hfix
      | succ k ihk =>
        unfold initializeIter
        rw [hfix]
        exact ihk

/-- Witness for C3: a plugin whose initializer settles with a failure,
registered on the empty Registry: registration leaves the invocation
count at zero, resolution runs the initializer once, and the failure is
memoized and re-surfaced unchanged. -/
theorem plugin_memoization_witness :
    lookupEntry emptyRegistry.cache "vertexai" = none ∧
    registerPluginProvider emptyRegistry "vertexai" (.error "credentials") =
      .ok ⟨[], [("vertexai", .error "credentials")], [], []⟩ ∧
    (initCountOf ⟨[], [("vertexai", .error "credentials")], [], []⟩ "vertexai" =
        initCountOf emptyRegistry "vertexai" ∧
      (initializePlugin ⟨[], [("vertexai", .error "credentials")], [], []⟩ "vertexai").1 =
        some (.error "credentials") ∧
      initCountOf
          (initializePlugin ⟨[], [("vertexai", .error "credentials")], [], []⟩ "vertexai").2
          "vertexai" = initCountOf emptyRegistry "vertexai" + 1 ∧
      (∀ k, initializeIter
          (initializePlugin ⟨[], [("vertexai", .error "credentials")], [], []⟩ "vertexai").2
          "vertexai" k =
        (some (.error "credentials"),
          (initializePlugin ⟨[], [("vertexai", .error "credentials")], [], []⟩ "vertexai").2))) :=
  ⟨rfl, rfl,
    plugin_memoization emptyRegistry "vertexai" (.error "credentials")
      ⟨[], [("vertexai", .error "credentials")], [], []⟩ rfl rfl⟩

/-- C4 counterexample: in the SIGTERM handler of
`src/js/core/src/genkit.ts` (lines 363–370), stopping the Reflection
servers is not sequenced before cleaning up tracing — both are started
together and awaited jointly by one `Promise.all`, so the claim's "in
that order" fails. -/
theorem sigterm_not_sequential :
    ¬ completesBefore sigtermHandler .stopAllReflection .cleanUpTracing := by
  decide

/-- C4 (amended): on SIGTERM the host stops all Reflection surfaces and
cleans up tracing concurrently in one jointly awaited batch, exits only
after both completed, and does not stop the production flow-serving
surface. -/
theorem sigterm_shutdown :
    phaseOf sigtermHandler .stopAllReflection = some 0 ∧
    phaseOf sigtermHandler .cleanUpTracing = some 0 ∧
    completesBefore sigtermHandler .stopAllReflection .procExitZero ∧
    completesBefore sigtermHandler .cleanUpTracing .procExitZero ∧
    phaseOf sigtermHandler .stopFlowServer = none := by
  decide

/-- C5: a Reflection surface is started for a Genkit instance if and
only if the GENKIT_ENV environment variable equals `dev` (unset, empty,
or any other value — including `prod` by default — never starts one). -/
theorem reflection_iff_dev (opts : GenkitOptions) (genkitEnv envPORT : Option String) :
    (mkGenkit opts genkitEnv envPORT).reflectionStarted = true ↔ genkitEnv = some "dev" := by
  show isDevEnv genkitEnv = true ↔ genkitEnv = some "dev"
  unfold isDevEnv getCurrentEnv
  cases genkitEnv with
  | none => simp
  | some s =>
    by_cases hs : s = ""
    · simp [hs]
    · simp [hs]

/-- C6: with `returnToolRequests = true` and a model candidate whose
finish reason is tool-call, the Generation Loop terminates immediately
after the single model call, returning the candidate with its pending
ToolRequests; no tool Action is invoked and no ToolResponse message is
appended (one model call, zero tool invocations, zero round trips). -/
theorem manual_mode (model : List Message → Candidate) (tools : List Tool)
    (fuel : Nat) (hist : List Message)
    (h : (model hist).finishReason = .toolCall) :
    generateLoop model tools true fuel hist =
      (.manual (model hist) (model hist).toolRequests, ⟨1, 0, 0⟩) := by
  rw [generateLoop.eq_def]
  simp [h]

/-- Witness for C6: the tool-call stub `requestModel` in manual mode
returns its candidate and the pending `specialTool` request after one
model call, with zero tool invocations. -/
theorem manual_mode_witness :
    (requestModel []).finishReason = .toolCall ∧
    generateLoop requestModel [specialTool] true 5 [] =
      (.manual (requestModel []) (requestModel []).toolRequests, ⟨1, 0, 0⟩) :=
  ⟨rfl, manual_mode requestModel [specialTool] 5 [] rfl⟩

/-- C8: two Genkit instances own disjoint Registries: an Action
registered with a (kind, name) on one instance succeeds independently on
the other, is visible only through the Registry it was registered on,
and duplicates are rejected only within one Registry; likewise a plugin
provider with one name registers independently on both instances'
Registries. -/
theorem registry_isolation
    (o1 o2 : GenkitOptions) (e1 e2 p1 p2 : Option String)
    (kind name a b pname : String) (init1 init2 : Except String String)
    (h1 : lookupEntry (mkGenkit o1 e1 p1).registry.providers pname = none)
    (h2 : lookupEntry (mkGenkit o2 e2 p2).registry.providers pname = none) :
    ∃ r1 r2 q1 q2,
      registerAction (mkGenkit o1 e1 p1).registry kind name a = .ok r1 ∧
      registerAction (mkGenkit o2 e2 p2).registry kind name b = .ok r2 ∧
      lookupAction r1 kind name = some a ∧
      lookupAction r2 kind name = some b ∧
      lookupAction (mkGenkit o1 e1 p1).registry kind name = none ∧
      lookupAction (mkGenkit o2 e2 p2).registry kind name = none ∧
      registerAction r1 kind name b = .error .duplicateName ∧
      registerPluginProvider r1 pname init1 = .ok q1 ∧
      registerPluginProvider r2 pname init2 = .ok q2 ∧
      lookupEntry q1.providers pname = some init1 ∧
      lookupEntry q2.providers pname = some init2 := by
  have hA1 : (mkGenkit o1 e1 p1).registry.actions = [] :=
    registerPluginList_actions o1.plugins emptyRegistry
  have hA2 : (mkGenkit o2 e2 p2).registry.actions = [] :=
    registerPluginList_actions o2.plugins emptyRegistry
  refine ⟨{ (mkGenkit o1 e1 p1).registry with actions := [((kind, name), a)] },
          { (mkGenkit o2 e2 p2).registry with actions := [((kind, name), b)] },
          { (mkGenkit o1 e1 p1).registry with
              actions := [((kind, name), a)],
              providers := (mkGenkit o1 e1 p1).registry.providers ++ [(pname, init1)] },
          { (mkGenkit o2 e2 p2).registry with
              actions := [((kind, name), b)],
              providers := (mkGenkit o2 e2 p2).registry.providers ++ [(pname, init2)] },
          registerAction_of_empty _ hA1 kind name a,
          registerAction_of_empty _ hA2 kind name b,
          ?_, ?_,
          lookupAction_of_empty _ hA1 kind name,
          lookupAction_of_empty _ hA2 kind name,
          ?_, ?_, ?_, ?_, ?_⟩
  · unfold lookupAction
    simp [List.find?]
  · unfold lookupAction
    simp [List.find?]
  · unfold registerAction
    simp [List.find?]
  · unfold registerPluginProvider
    simp only [h1, Option.isSome_none, if_false, Bool.false_eq_true]
  · unfold registerPluginProvider
    simp only [h2, Option.isSome_none, if_false, Bool.false_eq_true]
  · exact lookupEntry_append_none _ pname init1 h1
  · exact lookupEntry_append_none _ pname init2 h2

/-- Witness for C8: two plugin-free instances; the Action ("model",
"echo") registers on both, each sees only its own copy, re-registration
on the same Registry fails, and a plugin name registers on both. -/
theorem registry_isolation_witness :
    lookupEntry (mkGenkit ⟨[], none⟩ none none).registry.providers "p" = none ∧
    (∃ r1 r2 q1 q2,
      registerAction (mkGenkit ⟨[], none⟩ none none).registry "model" "echo" "a1" = .ok r1 ∧
      registerAction (mkGenkit ⟨[], none⟩ none none).registry "model" "echo" "a2" = .ok r2 ∧
      lookupAction r1 "model" "echo" = some "a1" ∧
      lookupAction r2 "model" "echo" = some "a2" ∧
      lookupAction (mkGenkit ⟨[], none⟩ none none).registry "model" "echo" = none ∧
      lookupAction (mkGenkit ⟨[], none⟩ none none).registry "model" "echo" = none ∧
      registerAction r1 "model" "echo" "a2" = .error .duplicateName ∧
      registerPluginProvider r1 "p" (.ok "v1") = .ok q1 ∧
      registerPluginProvider r2 "p" (.error "e2") = .ok q2 ∧
      lookupEntry q1.providers "p" = some (.ok "v1") ∧
      lookupEntry q2.providers "p" = some (.error "e2")) :=
  ⟨rfl, registry_isolation ⟨[], none⟩ ⟨[], none⟩ none none none none
    "model" "echo" "a1" "a2" "p" (.ok "v1") (.error "e2") rfl rfl⟩

/-- C9: when the options do not set the flow server's `enabled` flag to
true (the flow server options are absent, or `enabled` is false),
`startFlowServer` creates no server and the instance's flow server field
stays null — no Flow is exposed over HTTP, however many were defined. -/
theorem flowServer_disabled (opts : GenkitOptions) (genkitEnv envPORT : Option String)
    (regFlows : List FlowDef)
    (h : opts.flowServer.map FlowServerOptions.enabled ≠ some true) :
    startFlowServer opts envPORT regFlows = none ∧
    (mkGenkit opts genkitEnv envPORT).flowServer = none := by
  have hs : startFlowServer opts envPORT regFlows = none := by
    unfold startFlowServer
    cases hf : opts.flowServer with
    | none => rfl
    | some fs =>
      cases he : fs.enabled with
      | false => simp [he]
      | true => exact absurd (by rw [hf]; simp [he]) h
  refine ⟨hs, ?_⟩
  show startFlowServer opts envPORT [] = none
  unfold startFlowServer
  cases hf : opts.flowServer with
  | none => rfl
  | some fs =>
    cases he : fs.enabled with
    | false => simp [he]
    | true => exact absurd (by rw [hf]; simp [he]) h

/-- Witness for C9: `enabled: false` with a registered flow creates no
server and leaves the instance's flow server null. -/
theorem flowServer_disabled_witness :
    (⟨[], some ⟨false, none, none, none⟩⟩ : GenkitOptions).flowServer.map
      FlowServerOptions.enabled ≠ some true ∧
    (startFlowServer ⟨[], some ⟨false, none, none, none⟩⟩ none [⟨"menu"⟩] = none ∧
     (mkGenkit ⟨[], some ⟨false, none, none, none⟩⟩ none none).flowServer = none) :=
  ⟨by simp, flowServer_disabled ⟨[], some ⟨false, none, none, none⟩⟩ none none [⟨"menu"⟩]
    (by simp)⟩

/-- C10 counterexample: with the flow server enabled, a configured port
of `0` (a defined value) and PORT unset, the code listens on 3400 while
the claim's "first defined value" rule picks `0` — JavaScript `||`
skips falsy values, not undefined ones. -/
theorem flowServer_port_zero_cex :
    (startFlowServer ⟨[], some ⟨true, none, some 0, none⟩⟩ none []).map FlowServer.port =
      some 3400 ∧
    firstDefinedPort (some 0) none = 0 ∧
    (3400 : Int) ≠ 0 := by
  refine ⟨rfl, rfl, by decide⟩

/-- C10 (amended): when the flow server is enabled, the listening port
is the first truthy value among the configured port, the parsed PORT
environment variable, and 3400 (a configured `0`, or a PORT that is
unset, empty, non-numeric or `0`, is skipped); each flow is mounted at
`/` followed by the configured path prefix (empty by default) followed
by the flow's name. -/
theorem flowServer_port_and_paths (fs : FlowServerOptions)
    (plugins : List (String × Except String String))
    (envPORT : Option String) (regFlows : List FlowDef)
    (h : fs.enabled = true) :
    startFlowServer ⟨plugins, some fs⟩ envPORT regFlows =
      some ⟨firstTruthyPort fs.port envPORT,
            (fs.flows.getD regFlows).map (fun f => "/" ++ fs.pathPref.getD "" ++ f.name)⟩ := by
  unfold startFlowServer
  simp only [h, if_true]
  rw [choosePort_eq_firstTruthy]
  rfl

/-- Witness for C10 (amended): enabled flow server with a configured
port of `0`, PORT set to `8080`, and path prefix `api/` over one flow
named `menu`. -/
theorem flowServer_port_and_paths_witness :
    (⟨true, some [⟨"menu"⟩], some 0, some "api/"⟩ : FlowServerOptions).enabled = true ∧
    startFlowServer ⟨[], some ⟨true, some [⟨"menu"⟩], some 0, some "api/"⟩⟩ (some "8080") [] =
      some ⟨firstTruthyPort (some 0) (some "8080"),
            ((some [⟨"menu"⟩] : Option (List FlowDef)).getD []).map
              (fun f => "/" ++ (some "api/").getD "" ++ f.name)⟩ :=
  ⟨rfl, flowServer_port_and_paths ⟨true, some [⟨"menu"⟩], some 0, some "api/"⟩ []
    (some "8080") [] rfl⟩
